import Mathlib

/-!
Verification development for the kernel-configuration tool in
src/kernel_config.py.  The Python code is shallowly embedded: every
definition below mirrors one function or class of the source, with Python
exceptions modelled by the Except monad, Python dicts by insertion-ordered
association lists, and Python strings by Lean strings manipulated through
their character lists (so that everything reduces inside the kernel).
-/

/-! ## Python string primitives -/

/-- The characters Python treats as whitespace for str.rstrip/lstrip/split. -/
def isPySpace (c : Char) : Bool :=
  c = ' ' || c = '\t' || c = '\n' || c = '\r' || c = '\x0b' || c = '\x0c'

/-- Python str.rstrip(): drop trailing whitespace. -/
def pyRstrip (s : String) : String :=
  ⟨(s.data.reverse.dropWhile isPySpace).reverse⟩

/-- Python str.lstrip(): drop leading whitespace. -/
def pyLstrip (s : String) : String :=
  ⟨s.data.dropWhile isPySpace⟩

/-- Python str.startswith. -/
def strStartsWith (s pre : String) : Bool :=
  pre.data.isPrefixOf s.data

/-- Python str.endswith. -/
def strEndsWith (s suf : String) : Bool :=
  suf.data.isSuffixOf s.data

/-- Python substring containment, needle in haystack. -/
def containsSub (needle hay : String) : Bool :=
  hay.data.tails.any (fun t => needle.data.isPrefixOf t)

/-- Python str.split(sep, 1) for a one-character separator: the part before
the first occurrence and everything after it; none when the separator is
absent (indexing [1] then raises IndexError). -/
def split1 (sep : Char) : List Char → Option (List Char × List Char)
  | [] => none
  | c :: cs =>
    if c = sep then some ([], cs)
    else (split1 sep cs).map (fun p => (c :: p.1, p.2))

/-- Python str.split() with no separator: split on whitespace runs, no
empty fields. -/
def splitWsGo (acc : List Char) : List Char → List (List Char)
  | [] => if acc.isEmpty then [] else [acc.reverse]
  | c :: cs =>
    if isPySpace c then
      if acc.isEmpty then splitWsGo [] cs else acc.reverse :: splitWsGo [] cs
    else splitWsGo (c :: acc) cs

def pySplitWs (s : String) : List String :=
  (splitWsGo [] s.data).map (fun l => (⟨l⟩ : String))

/-- Python str.split(sep) for a one-character separator, all fields kept
(so the empty string yields one empty field, as in Python). -/
def splitChar (sep : Char) : List Char → List (List Char)
  | [] => [[]]
  | c :: cs =>
    let r := splitChar sep cs
    if c = sep then [] :: r
    else
      match r with
      | h :: t => (c :: h) :: t
      | [] => [[c]]

/-- Python str.strip of a quote character: drop every leading and trailing
double quote. -/
def stripQuotes (s : String) : String :=
  ⟨((s.data.dropWhile (fun c => c = '"')).reverse.dropWhile
      (fun c => c = '"')).reverse⟩

/-- The prefix of a character list up to (excluding) the first occurrence of
the substring needle; fuel-driven so that it reduces structurally. -/
def takeUntilSub (needle : List Char) : Nat → List Char → List Char
  | 0, l => l
  | _ + 1, [] => []
  | n + 1, c :: cs =>
    if needle.isPrefixOf (c :: cs) then []
    else c :: takeUntilSub needle n cs

/-- Python str.replace for a fixed needle, scanning left to right over
non-overlapping occurrences; fuel-driven so that it reduces structurally. -/
def replaceSubFuel (needle repl : List Char) : Nat → List Char → List Char
  | 0, l => l
  | _ + 1, [] => []
  | n + 1, c :: cs =>
    if needle.isPrefixOf (c :: cs) then
      repl ++ replaceSubFuel needle repl n (List.drop (needle.length - 1) cs)
    else c :: replaceSubFuel needle repl n cs

/-! ## Regular expressions of the source, specialised

The source uses four regexes; each is embedded as the predicate it decides.
-/

/-- A later closing double quote with no newline before it, as the regex
group (.*) followed by a quote requires (the dot does not match a
newline). -/
def closingQuote : List Char → Bool
  | [] => false
  | c :: cs => if c = '"' then true else if c = '\n' then false else closingQuote cs

/-- One step of re.search for KConfig._source_regex, r'source\s+\"(.*)\"',
anchored at the head of the given character list. -/
def sourceMatchAt (cs : List Char) : Bool :=
  if "source".data.isPrefixOf cs then
    let r1 := cs.drop 6
    let ws := r1.takeWhile isPySpace
    let r2 := r1.dropWhile isPySpace
    !ws.isEmpty &&
      (match r2 with
       | '"' :: r3 => closingQuote r3
       | _ => false)
  else false

/-- re.search of KConfig._source_regex over the whole line. -/
def matchesSource (s : String) : Bool :=
  s.data.tails.any sourceMatchAt

/-- One keyword test of the parser, re.search(r'^KEYWORD( |$)', line):
the line is the keyword or starts with the keyword followed by a space. -/
def startTok (tok : String) (s : String) : Bool :=
  s == tok || strStartsWith s (tok ++ " ")

/-- A character accepted by LinuxKernelConfigParameter._invalid_name_chars,
r'[^a-zA0-Z_0-9]'.  NOTE: the class is transcribed exactly: a-z, the single
letter A, the RANGE 0-Z (0x30..0x5A, which also contains : ; < = > ? @),
underscore, and 0-9. -/
def validNameChar (c : Char) : Bool :=
  ('a' ≤ c && c ≤ 'z') || c = 'A' || ('0' ≤ c && c ≤ 'Z') || c = '_' ||
    ('0' ≤ c && c ≤ '9')

/-- LinuxKernelConfigParameter._validate_name: true when re.search finds no
character outside the class. -/
def pyValidateName (s : String) : Bool :=
  s.data.all validNameChar

/-- re.search of LinuxKernelConfigParameter._basic_value_match,
r'^(-?([0-9])+|[ynm])': an optional minus followed by at least one digit, or
one of y/n/m, at the start of the string (no end anchor). -/
def basicValueMatch (s : String) : Bool :=
  match s.data with
  | [] => false
  | c :: rest =>
    if c = 'y' || c = 'n' || c = 'm' then true
    else if c.isDigit then true
    else if c = '-' then
      match rest with
      | [] => false
      | d :: _ => d.isDigit
    else false

/-- A character of LinuxKernelConfigParameter._string_value_patch,
r'^([a-zA-Z0-9/_.,-=\(\) ])*$'.  NOTE: transcribed exactly: inside the class
,-= is a RANGE (0x2C..0x3D), which also contains : ; and <. -/
def stringValueChar (c : Char) : Bool :=
  ('a' ≤ c && c ≤ 'z') || ('A' ≤ c && c ≤ 'Z') || ('0' ≤ c && c ≤ '9') ||
    c = '/' || c = '_' || c = '.' || (',' ≤ c && c ≤ '=') || c = '(' ||
    c = ')' || c = ' '

/-- re.search of _string_value_patch: fully anchored, so every character must
be in the class (the empty string matches). -/
def stringValueMatch (s : String) : Bool :=
  s.data.all stringValueChar

/-- LinuxKernelConfigParameter._validate_value: the basic numeric/tristate
match, or the string-charset match. -/
def pyValidateValue (s : String) : Bool :=
  basicValueMatch s || stringValueMatch s

/-! ## LinuxKernelConfigParameter -/

/-- Python str.upper restricted to ASCII, which is all the validated name
charset can contain: a lowercase latin letter (code 97..122) moves down by
32, anything else is unchanged. -/
def upperChar (c : Char) : Char :=
  if 97 ≤ c.toNat ∧ c.toNat ≤ 122 then Char.ofNat (c.toNat - 32) else c

def pyUpper (s : String) : String :=
  ⟨s.data.map upperChar⟩

/-- LinuxKernelConfigParameter._set_name: uppercase, then prepend CONFIG_
unless already present. -/
def normalizeName (s : String) : String :=
  if strStartsWith (pyUpper s) "CONFIG_" then pyUpper s
  else "CONFIG_" ++ pyUpper s

/-- Exceptions of the resolver/emitter side of the source. -/
inductive KcErr where
  | valueErrorName (s : String)
  | valueErrorValue (s : String)
  | valueErrorMissingName
  | keyError (s : String)
  | attributeError (s : String)
deriving DecidableEq, Repr

/-- The resolved record of src/kernel_config.py, class
LinuxKernelConfigParameter.  value none models the attribute being absent
(it is only set when a value kwarg is passed). -/
structure LinuxKernelConfigParameter where
  name : String
  value : Option String := none
  defined : Bool := true
  description : Option String := none
deriving DecidableEq, Repr

/-- LinuxKernelConfigParameter.__init__ together with the __setattr__
validator/setter hooks: components are processed in order name, value,
defined, description; name is validated then normalized; a present value is
validated and sets defined true; the defined kwarg otherwise defaults to
true. A failed validation raises ValueError. -/
def mkLKCP (name : Option String) (value : Option String)
    (definedKw : Option Bool) (description : Option String) :
    Except KcErr LinuxKernelConfigParameter :=
  match name with
  | none => .error .valueErrorMissingName
  | some n =>
    if !pyValidateName n then .error (.valueErrorName n)
    else
      match value with
      | some v =>
        if !pyValidateValue v then .error (.valueErrorValue v)
        else
          .ok { name := normalizeName n, value := some v,
                defined := definedKw.getD true, description := description }
      | none =>
        .ok { name := normalizeName n, value := none,
              defined := definedKw.getD true, description := description }

/-- LinuxKernelConfigParameter.__str__: the optional description comment,
then NAME=VALUE (value bare when it matches the basic pattern, quoted
otherwise) or the "is not set" comment.  Python evaluates self.value before
checking self.defined, so a record whose value attribute was never set
raises AttributeError even when defined is false. -/
def renderLKCP (p : LinuxKernelConfigParameter) : Except KcErr String :=
  let descPart :=
    match p.description with
    | some d => "# " ++ d ++ "\n"
    | none => ""
  match p.value with
  | none => .error (.attributeError "value")
  | some v =>
    let outVal := if basicValueMatch v then v else "\"" ++ v ++ "\""
    .ok (descPart ++
      (if p.defined then p.name ++ "=" ++ outVal
       else "# " ++ p.name ++ " is not set"))

/-! ## KernelDict: the config value resolver -/

/-- A value of the external fact table (config_values): a scalar string or a
list of strings. -/
inductive FactVal where
  | s (v : String)
  | l (vs : List String)
deriving DecidableEq, Repr

/-- One condition expression of an override entry's if list. -/
structure CondExpr where
  value : String
  isKey : Option String := none
  inKey : Option String := none
deriving DecidableEq, Repr

/-- An override specification, the right-hand side of one entry of the
loaded YAML mapping: null, a plain scalar, or a structured record (whose
value field may be absent, which raises KeyError when read). -/
inductive OvSpec where
  | null
  | scalar (v : String)
  | record (value : Option String) (description : Option String)
      (ifList : Option (List CondExpr))
deriving DecidableEq, Repr

/-- The warnings KernelDict logs while resolving. -/
inductive DWarn where
  | failedGenerate (key : String)
  | alreadyDefined (name : String)
deriving DecidableEq, Repr

/-- Python value in collection for a fact value: substring test on a string,
membership on a list. -/
def pyIn (v : String) : FactVal → Bool
  | .s t => containsSub v t
  | .l vs => vs.contains v

/-- KernelDict.check_expression: the is test runs first, then the in test
overwrites its result; a fact key absent from config_values raises
KeyError. -/
def checkExpression (facts : List (String × FactVal)) (e : CondExpr) :
    Except KcErr Bool :=
  match
    (match e.isKey with
     | none => Except.ok false
     | some k =>
       match facts.lookup k with
       | none => Except.error (KcErr.keyError k)
       | some fv =>
         Except.ok (match fv with
           | .s t => e.value == t
           | .l _ => false)) with
  | .error er => .error er
  | .ok b1 =>
    match e.inKey with
    | none => .ok b1
    | some k =>
      match facts.lookup k with
      | none => .error (.keyError k)
      | some fv => .ok (pyIn e.value fv)

/-- The list comprehension over an if list: every expression is evaluated
in order, the first exception aborting. -/
def checkList (facts : List (String × FactVal)) :
    List CondExpr → Except KcErr (List Bool)
  | [] => .ok []
  | e :: es =>
    match checkExpression facts e with
    | .error er => .error er
    | .ok b =>
      match checkList facts es with
      | .error er => .error er
      | .ok bs => .ok (b :: bs)

/-- KernelDict._gen_config_obj_from_dict: null makes an undefined record;
a scalar becomes the value; a structured record reads value (KeyError when
the key is absent), the optional description, and the optional if list
(returning none, to be reported as a warning, when no expression is true).
The result none models the Python method returning None. -/
def genConfigObj (facts : List (String × FactVal)) (name : String) :
    OvSpec → Except KcErr (Option LinuxKernelConfigParameter)
  | .null =>
    (mkLKCP (some name) none (some false) none).map some
  | .scalar v =>
    (mkLKCP (some name) (some v) none none).map some
  | .record val desc ifList =>
    match val with
    | none => .error (.keyError "value")
    | some v =>
      match ifList with
      | some es =>
        match checkList facts es with
        | .error er => .error er
        | .ok bs =>
          if bs.contains true then (mkLKCP (some name) (some v) none desc).map some
          else .ok none
      | none => (mkLKCP (some name) (some v) none desc).map some

/-- Ordered-dict get. -/
def alGet {α : Type} (k : String) (l : List (String × α)) : Option α :=
  List.lookup k l

/-- Ordered-dict set: overwrite in place, else append (Python dict
semantics, insertion order preserved). -/
def alSet {α : Type} (k : String) (v : α) : List (String × α) → List (String × α)
  | [] => [(k, v)]
  | (k1, v1) :: t => if k1 == k then (k, v) :: t else (k1, v1) :: alSet k v t

/-- The KernelDict object: the external fact table plus the resolved
collection (the underlying dict). -/
structure KernelDict where
  configValues : List (String × FactVal)
  entries : List (String × LinuxKernelConfigParameter)
deriving DecidableEq, Repr

/-- KernelDict.update_value: warn when the key already exists, then store
under the record's own name. -/
def updateValue (d : KernelDict) (p : LinuxKernelConfigParameter) :
    KernelDict × List DWarn :=
  let w := if (alGet p.name d.entries).isSome then [DWarn.alreadyDefined p.name] else []
  ({ d with entries := alSet p.name p d.entries }, w)

/-- KernelDict.__setitem__: build the parameter; a falsy result is a warning
and no insertion; an exception propagates to the caller. -/
def kdSetItem (d : KernelDict) (k : String) (v : OvSpec) :
    Except KcErr (KernelDict × List DWarn) :=
  match genConfigObj d.configValues k v with
  | .error er => .error er
  | .ok none => .ok (d, [.failedGenerate k])
  | .ok (some p) => .ok (updateValue d p)

/-- A sequence of item assignments, warnings accumulated, the first
exception aborting the batch (as an uncaught Python exception does). -/
def kdRunGo : KernelDict → List DWarn → List (String × OvSpec) →
    Except KcErr (KernelDict × List DWarn)
  | d, w, [] => .ok (d, w)
  | d, w, (k, v) :: rest =>
    match kdSetItem d k v with
    | .error er => .error er
    | .ok (d1, w1) => kdRunGo d1 (w ++ w1) rest

def kdRun (d : KernelDict) (ops : List (String × OvSpec)) :
    Except KcErr (KernelDict × List DWarn) :=
  kdRunGo d [] ops

/-- The fold behind KernelDict.__str__ over the stored records. -/
def renderEntries : List (String × LinuxKernelConfigParameter) → Except KcErr String
  | [] => .ok ""
  | (_, p) :: t =>
    match renderLKCP p with
    | .error er => .error er
    | .ok s =>
      match renderEntries t with
      | .error er => .error er
      | .ok rest => .ok (s ++ "\n" ++ rest)

/-- KernelDict.__str__: each stored record rendered, a newline after each. -/
def renderKernelDict (d : KernelDict) : Except KcErr String :=
  renderEntries d.entries

/-- A name in the form _set_name leaves stored names in: CONFIG_-prefixed
and containing no lowercase ASCII letter (codes 97..122), i.e.
uppercased. -/
def isNormalizedName (n : String) : Prop :=
  strStartsWith n "CONFIG_" = true ∧
    n.data.all (fun c => decide (c.toNat < 97) || decide (122 < c.toNat)) = true

instance (n : String) : Decidable (isNormalizedName n) := by
  unfold isNormalizedName; infer_instance

/-- The invariant of the resolved collection: every stored key is the
stored record's own (normalized) name. -/
def kdInv (d : KernelDict) : Prop :=
  ∀ kp : String × LinuxKernelConfigParameter,
    kp ∈ d.entries → kp.1 = kp.2.name ∧ isNormalizedName kp.2.name

/-! ## KConfig: the Kconfig file parser

One KConfig instance per parsed file.  The per-file attribute state is
KCore; the recursive tree of sub_configs is KTree; PState bundles the state
parse_line threads, with the warnings the logger would emit.  Python
exceptions (AttributeError for a missing attribute, KeyError for a missing
dict key, IndexError for pop/indexing, RecursionError for unbounded source
recursion) become PErr values that abort the parse, exactly as an uncaught
exception aborts KConfig.__init__.
-/

/-- One entry of the menu/choice/config/menuconfig/if dicts: the keys the
source ever sets on the per-name inner dict. -/
structure KEntry where
  help : Option String := none
  vtype : Option String := none
  prompt : Option String := none
  dflt : Option String := none
deriving DecidableEq, Repr

/-- The exceptions that can escape KConfig parsing. -/
inductive PErr where
  | outOfFuel
  | attributeError (s : String)
  | keyError (s : String)
  | indexError
  | valueError (s : String)
  | fileNotFound (s : String)
deriving DecidableEq, Repr

/-- The warnings KConfig.parse_line logs. -/
inductive KWarn where
  | skipInclude (path : String)
  | unknownLine (line : String)
deriving DecidableEq, Repr

/-- The per-file attribute state of a KConfig instance. -/
structure KCore where
  arch : String
  basePath : String
  filePath : String
  inMenu : Option String
  inChoice : Option String
  inConfig : Option String
  inMenuconfig : Option String
  inIf : Option String
  menuD : List (String × KEntry)
  choiceD : List (String × KEntry)
  configD : List (String × KEntry)
  menuconfigD : List (String × KEntry)
  ifD : List (String × KEntry)
  modeHistory : List String
  helpMode : Bool
  mode : Option String
  currents : List (String × String)
deriving DecidableEq, Repr

/-- The tree of parsed files: a node's own state plus sub_configs. -/
inductive KTree where
  | node (core : KCore) (subs : List (String × KTree))
deriving Repr

def KTree.core : KTree → KCore
  | .node c _ => c

def KTree.subs : KTree → List (String × KTree)
  | .node _ s => s

/-- The state parse_line threads: the instance attributes, sub_configs,
and the warnings logged so far. -/
structure PState where
  core : KCore
  subs : List (String × KTree)
  warns : List KWarn

/-- getattr(self, m) for the five mode dicts; none is an AttributeError. -/
def getDictD (core : KCore) (m : String) : Option (List (String × KEntry)) :=
  if m == "menu" then some core.menuD
  else if m == "choice" then some core.choiceD
  else if m == "config" then some core.configD
  else if m == "menuconfig" then some core.menuconfigD
  else if m == "if" then some core.ifD
  else none

/-- setattr of one of the five mode dicts (only called on the five names). -/
def setDictD (core : KCore) (m : String) (d : List (String × KEntry)) : KCore :=
  if m == "menu" then { core with menuD := d }
  else if m == "choice" then { core with choiceD := d }
  else if m == "config" then { core with configD := d }
  else if m == "menuconfig" then { core with menuconfigD := d }
  else if m == "if" then { core with ifD := d }
  else core

/-- getattr(self, 'current_' + m); absent is an AttributeError. -/
def getCurrent (core : KCore) (m : String) : Except PErr String :=
  match alGet m core.currents with
  | none => .error (.attributeError ("current_" ++ m))
  | some c => .ok c

def setCurrent (core : KCore) (m : String) (name : String) : KCore :=
  { core with currents := alSet m name core.currents }

/-- self.mode; reading it before any assignment is an AttributeError. -/
def getMode (core : KCore) : Except PErr String :=
  match core.mode with
  | none => .error (.attributeError "mode")
  | some m => .ok m

/-- KConfig.__setattr__ on mode with a truthy value: the value is appended
to mode_history (stored most-recent-first here) and becomes the mode. -/
def pushMode (core : KCore) (m : String) : KCore :=
  { core with modeHistory := m :: core.modeHistory, mode := some m }

/-- KConfig.__setattr__ on mode with None: the most recent history entry is
popped and becomes the mode; popping an empty list is an IndexError. -/
def popMode (core : KCore) : Except PErr KCore :=
  match core.modeHistory with
  | [] => .error .indexError
  | m :: t => .ok { core with modeHistory := t, mode := some m }

/-- KConfig._skip_line: comments and empty lines. -/
def skipLine (cl : String) : Bool :=
  strStartsWith cl "#" || cl == ""

/-- KConfig.substitute_vars: only $(SRCARCH) is replaced. -/
def substituteVars (arch : String) (line : String) : String :=
  if containsSub "$" line then
    if containsSub "$(SRCARCH)" line then
      ⟨replaceSubFuel "$(SRCARCH)".data arch.data line.data.length line.data⟩
    else line
  else line

/-- Truthiness of the in_menu / in_choice attributes. -/
def optTruthy : Option String → Bool
  | none => false
  | some s => s != ""

/-- KConfig._test_start: with a truthy mode the line is lstripped first;
then any of the five start keywords, or a bare help line. -/
def testStart (core : KCore) (cl : String) : Bool :=
  let cl1 := if (match core.mode with | some s => s != "" | none => false)
             then pyLstrip cl else cl
  (["menu", "choice", "config", "menuconfig", "if"].any (fun t => startTok t cl1)) ||
    pyLstrip cl1 == "help"

/-- KConfig._test_var: a type keyword or its def_ variant. -/
def testVar (cl : String) : Bool :=
  ["bool", "tristate", "int", "string"].any
    (fun v => startTok v cl || startTok ("def_" ++ v) cl)

/-- The substring scan of KConfig._exit_mode over the three exit keywords:
each occurrence logs self.mode (AttributeError when unset) and assigns
mode = None, which pops the history. -/
def exitFold (core : KCore) (cl : String) : List String → Except PErr KCore
  | [] => .ok core
  | e :: es =>
    match
      ((if containsSub e cl then
        match getMode core with
        | .error er => .error er
        | .ok _ => popMode core
      else .ok core) : Except PErr KCore) with
    | .error er => .error er
    | .ok core1 => exitFold core1 cl es

/-- KConfig._exit_mode: pop for each matching exit keyword; then, when in
help mode, leave help mode (the log line reads current_ of the new mode,
an AttributeError when that attribute is unset). -/
def exitMode (st : PState) (cl : String) : Except PErr PState :=
  match exitFold st.core cl ["endmenu", "endchoice", "endif"] with
  | .error er => .error er
  | .ok core =>
    if core.helpMode then
      match getMode core with
      | .error er => .error er
      | .ok m =>
        match getCurrent core m with
        | .error er => .error er
        | .ok _ => .ok { st with core := { core with helpMode := false } }
    else .ok { st with core := core }

/-- KConfig._enter_mode.  A bare help line enters help mode and initializes
the help key of the current entry; any other line seen in help mode leaves
help mode implicitly; otherwise the whole line is pushed as the mode.  Then
a line containing a space pushes its first word as the mode, initializes
that dict's entry for the rest of the line (hasattr on a dict is False for
ordinary keys, so the entry is re-created), and sets current_ of it. -/
def enterMode (st : PState) (cl : String) : Except PErr PState :=
  match
    ((if cl == "help" then
      let core := { st.core with helpMode := true }
      match getMode core with
      | .error er => .error er
      | .ok m =>
        match getDictD core m with
        | none => .error (.attributeError m)
        | some d =>
          match getCurrent core m with
          | .error er => .error er
          | .ok cur =>
            match alGet cur d with
            | none => .error (.keyError cur)
            | some entry =>
              .ok (if entry.help.isNone then
                     setDictD core m (alSet cur { entry with help := some "" } d)
                   else core)
    else if st.core.helpMode then .ok { st.core with helpMode := false }
    else .ok (pushMode st.core cl)) : Except PErr KCore) with
  | .error er => .error er
  | .ok core =>
    if containsSub " " cl && !core.helpMode then
      match split1 ' ' cl.data with
      | none => .error .indexError
      | some (mw, name) =>
        let mword : String := ⟨mw⟩
        let nm : String := ⟨name⟩
        let core := pushMode core mword
        match getDictD core mword with
        | none => .error (.attributeError mword)
        | some d =>
          let core := setDictD core mword (alSet nm ({} : KEntry) d)
          .ok { st with core := setCurrent core mword nm }
    else .ok { st with core := core }

/-- KConfig._process_var.  Raises ValueError outside config/menuconfig/
choice mode; in choice mode the text between the first quotes becomes a new
current choice entry; a def_ line stores the text after def_ as the default
and leaves the line empty; finally the type (and quoted prompt, when a space
is present) is stored on the current entry. -/
def processVar (st : PState) (cl : String) : Except PErr PState :=
  match getMode st.core with
  | .error er => .error er
  | .ok m =>
    if !(m == "config" || m == "menuconfig" || m == "choice") then
      .error (.valueError cl)
    else
      match
        ((if m == "choice" then
          match (splitChar '"' cl.data).get? 1 with
          | none => .error PErr.indexError
          | some pr =>
            let prompt : String := ⟨pr⟩
            .ok { st.core with
                  choiceD := alSet prompt ({} : KEntry) st.core.choiceD,
                  currents := alSet "choice" prompt st.core.currents }
        else .ok st.core) : Except PErr KCore) with
      | .error er => .error er
      | .ok core =>
        match
          ((if strStartsWith cl "def_" then
            let dflt : String :=
              ⟨takeUntilSub "def_".data cl.data.length (cl.data.drop 4)⟩
            match getCurrent core m with
            | .error er => .error er
            | .ok cur =>
              match getDictD core m with
              | none => .error (.attributeError m)
              | some d =>
                match alGet cur d with
                | none => .error (.keyError cur)
                | some entry =>
                  let core := setDictD core m (alSet cur { entry with dflt := some dflt } d)
                  let cl1 : String := ⟨takeUntilSub "def_".data cl.data.length cl.data⟩
                  .ok (core, cl1)
          else .ok (core, cl)) : Except PErr (KCore × String)) with
        | .error er => .error er
        | .ok (core, cl) =>
          match getCurrent core m with
          | .error er => .error er
          | .ok cur =>
            match getDictD core m with
            | none => .error (.attributeError m)
            | some d =>
              match alGet cur d with
              | none => .error (.keyError cur)
              | some entry =>
                if containsSub " " cl then
                  match split1 ' ' cl.data with
                  | none => .error .indexError
                  | some (var, value) =>
                    let tv : String := ⟨var⟩
                    let pv : String := stripQuotes ⟨value⟩
                    let entry := { entry with vtype := some tv, prompt := some pv }
                    .ok { st with core := setDictD core m (alSet cur entry d) }
                else
                  let core1 := setDictD core m (alSet cur { entry with vtype := some cl } d)
                  .ok { st with core := core1 }

/-- KConfig.parse_line, with the recursive construction of a child KConfig
for a source line abstracted as the child argument (it receives the source
path and the optional menu/choice kwargs and returns the parsed child tree
together with the warnings it logged). -/
def parseLineGo
    (child : String → Option String → Option String → Except PErr (KTree × List KWarn))
    (st : PState) (line : String) : Except PErr PState :=
  let cl := substituteVars st.core.arch (pyRstrip line)
  if skipLine cl then .ok st
  else if ["endmenu", "endchoice", "endif"].contains cl then exitMode st cl
  else if strStartsWith (pyLstrip cl) "prompt" then
    match split1 ' ' cl.data with
    | none => .error .indexError
    | some (_, name) =>
      let nm : String := ⟨name⟩
      match getMode st.core with
      | .error er => .error er
      | .ok m =>
        match getDictD st.core m with
        | none => .error (.attributeError m)
        | some d =>
          let core := setDictD st.core m (alSet nm ({} : KEntry) d)
          .ok { st with core := setCurrent core m nm }
  else if testStart st.core cl then enterMode st (pyLstrip cl)
  else
    let cl := pyLstrip cl
    if testVar cl then processVar st cl
    else if st.core.helpMode then
      match getMode st.core with
      | .error er => .error er
      | .ok m =>
        match getDictD st.core m with
        | none => .error (.attributeError m)
        | some d =>
          match getCurrent st.core m with
          | .error er => .error er
          | .ok cur =>
            match alGet cur d with
            | none => .error (.keyError cur)
            | some entry =>
              match entry.help with
              | none => .error (.keyError "help")
              | some h =>
                let core := setDictD st.core m (alSet cur { entry with help := some (h ++ cl) } d)
                .ok { st with core := core }
    else if matchesSource cl then
      match (pySplitWs cl).get? 1 with
      | none => .error .indexError
      | some tok =>
        let path := stripQuotes tok
        if strEndsWith path ".include" then
          .ok { st with warns := st.warns ++ [.skipInclude path] }
        else
          let mkw := if optTruthy st.core.inMenu then st.core.inMenu else none
          let ckw := if optTruthy st.core.inChoice then st.core.inChoice else none
          Except.bind (child path mkw ckw) (fun tw =>
            .ok { st with subs := alSet path tw.1 st.subs, warns := st.warns ++ tw.2 })
    else
      .ok { st with warns := st.warns ++ [.unknownLine cl] }

/-- The loop of KConfig.parse_config over the lines of one file. -/
def parseLinesGo
    (child : String → Option String → Option String → Except PErr (KTree × List KWarn)) :
    PState → List String → Except PErr PState
  | st, [] => .ok st
  | st, l :: ls =>
    match parseLineGo child st l with
    | .error er => .error er
    | .ok st1 => parseLinesGo child st1 ls

/-- The keyword arguments a KConfig instance is created with.  base_path
and arch are class attributes: parse_line never passes them to a child, so
a child falls back to the class defaults. -/
structure InitArgs where
  filePath : String
  menu : Option String := none
  choice : Option String := none
  basePath : Option String := none
  arch : Option String := none

/-- KConfig.__init__ before parse_config: attribute initialization. -/
def initCore (a : InitArgs) : KCore :=
  { arch := a.arch.getD "x86"
  , basePath := a.basePath.getD "/usr/src/linux"
  , filePath := a.filePath
  , inMenu := a.menu, inChoice := a.choice
  , inConfig := none, inMenuconfig := none, inIf := none
  , menuD := [], choiceD := [], configD := [], menuconfigD := [], ifD := []
  , modeHistory := [], helpMode := false, mode := none, currents := [] }

/-- An in-memory file system: full path to the list of lines. -/
def FS : Type := List (String × List String)

/-- KConfig.__init__ + parse_config, fuel-indexed: a nested source line
recursively constructs and parses a child with one unit of fuel less, so
fuel bounds the include depth.  Running out of fuel models Python blowing
the recursion limit (there is no cycle detection in the source). -/
def parseFile : Nat → FS → InitArgs → Except PErr (KTree × List KWarn)
  | 0, _, _ => .error .outOfFuel
  | fuel + 1, fs, args =>
    let core0 := initCore args
    match alGet (core0.basePath ++ "/" ++ core0.filePath) fs with
    | none => .error (.fileNotFound core0.filePath)
    | some lines =>
      match parseLinesGo
          (fun p mk ck =>
            parseFile fuel fs
              { filePath := p, menu := mk, choice := ck, basePath := none, arch := none })
          { core := core0, subs := [], warns := [] } lines with
      | .error er => .error er
      | .ok st => .ok (.node st.core st.subs, st.warns)

/-! ## Concrete inputs used by the claims -/

/-- The record the resolver builds for the override entry FOO: "y". -/
def pFooY : LinuxKernelConfigParameter :=
  { name := "CONFIG_FOO", value := some "y", defined := true, description := none }

/-- The record the resolver builds for the override entry FOO: null. -/
def pFooNull : LinuxKernelConfigParameter :=
  { name := "CONFIG_FOO", value := none, defined := false, description := none }

/-- The condition expression of the conditional-override claims. -/
def exprArchX : CondExpr := { value := "x", isKey := some "arch", inKey := none }

/-- The override entry with value x guarded by the arch condition. -/
def specArchX : OvSpec := .record (some "x") none (some [exprArchX])

/-- A one-file Kconfig tree: a menu opener followed by a mismatched
endchoice closer. -/
def fsC5 : FS := [("/usr/src/linux/c5.kconfig", ["menu \"A\"", "endchoice"])]

def argsC5 : InitArgs := { filePath := "c5.kconfig" }

/-- The per-file state the mismatched-closer run ends in. -/
def coreC5 : KCore :=
  { arch := "x86", basePath := "/usr/src/linux", filePath := "c5.kconfig"
  , inMenu := none, inChoice := none, inConfig := none, inMenuconfig := none, inIf := none
  , menuD := [("\"A\"", {})], choiceD := [], configD := [], menuconfigD := [], ifD := []
  , modeHistory := ["menu \"A\""], helpMode := false, mode := some "menu"
  , currents := [("menu", "\"A\"")] }

/-- A one-file Kconfig tree exercising the help block of claim C8. -/
def fsC8 : FS :=
  [("/usr/src/linux/c8.kconfig",
    ["config FOO", "help", "  line one", "  line two", "config NEXT"])]

def argsC8 : InitArgs := { filePath := "c8.kconfig" }

/-- A file sourcing b.kconfig twice, and the sourced file. -/
def fsC9 : FS :=
  [ ("/usr/src/linux/a.kconfig", ["source \"b.kconfig\"", "source \"b.kconfig\""])
  , ("/usr/src/linux/b.kconfig", ["config X"]) ]

def argsC9 : InitArgs := { filePath := "a.kconfig" }

/-- A file whose only line sources the file itself: an include cycle of
length one. -/
def fsCyc : FS := [("/usr/src/linux/a.kconfig", ["source \"a.kconfig\""])]

def argsCyc : InitArgs := { filePath := "a.kconfig" }

/-- The child constructor parse_line uses while parsing the cyclic file. -/
def childCyc (n : Nat) : String → Option String → Option String →
    Except PErr (KTree × List KWarn) :=
  fun p mk ck =>
    parseFile n fsCyc
      { filePath := p, menu := mk, choice := ck, basePath := none, arch := none }

/-- The state parse_config starts from for the cyclic file. -/
def pst0Cyc : PState := { core := initCore argsCyc, subs := [], warns := [] }

/-! ## Theorems -/

/-- C1: Round-trip through resolver and emitter.  Resolving the entry FOO
with scalar value y and rendering yields exactly CONFIG_FOO=y.  Resolving
FOO with a null specification builds the record (defined false, no value),
but rendering that record raises AttributeError, because __str__ reads
self.value before checking self.defined and the value attribute was never
set: the claimed output, the line saying CONFIG_FOO is not set, is never
produced.  This evaluates the code at the failing input of the code_bug. -/
theorem C1_roundtrip_resolve_render :
    genConfigObj [] "FOO" (.scalar "y") = .ok (some pFooY) ∧
    renderLKCP pFooY = .ok "CONFIG_FOO=y" ∧
    genConfigObj [] "FOO" .null = .ok (some pFooNull) ∧
    renderLKCP pFooNull = .error (.attributeError "value") :=
  ⟨rfl, rfl, rfl, rfl⟩

/-- C3: Value validation.  Constructing a record with value bad;value
SUCCEEDS (the claim says it fails): the character class of
_string_value_patch contains the range from comma to equals, which admits
the semicolon.  The two values the claim says are accepted are accepted.
This evaluates the code at the failing input of the code_bug. -/
theorem C3_value_validation :
    mkLKCP (some "FOO") (some "bad;value") none none =
      .ok { name := "CONFIG_FOO", value := some "bad;value", defined := true,
            description := none } ∧
    pyValidateValue "bad;value" = true ∧
    mkLKCP (some "FOO") (some "ok_value-1") none none =
      .ok { name := "CONFIG_FOO", value := some "ok_value-1", defined := true,
            description := none } ∧
    mkLKCP (some "FOO") (some "y") none none = .ok pFooY :=
  ⟨rfl, rfl, rfl, rfl⟩

/-- C4: Name validation.  Construction with names containing a semicolon, a
colon or an at sign SUCCEEDS (the claim says any character outside
A-Za-z0-9_ raises): _invalid_name_chars is written a-zA0-Z_0-9, whose range
0-Z admits every character from 0x30 to 0x5A, semicolon, colon and at sign
included.  A character outside that range (a space) does raise.  This
evaluates the code at the failing input of the code_bug. -/
theorem C4_name_validation :
    mkLKCP (some "FOO;") (some "y") none none =
      .ok { name := "CONFIG_FOO;", value := some "y", defined := true,
            description := none } ∧
    mkLKCP (some "FOO:") (some "y") none none =
      .ok { name := "CONFIG_FOO:", value := some "y", defined := true,
            description := none } ∧
    mkLKCP (some "F@O") (some "y") none none =
      .ok { name := "CONFIG_F@O", value := some "y", defined := true,
            description := none } ∧
    mkLKCP (some "FOO BAR") (some "y") none none = .error (.valueErrorName "FOO BAR") :=
  ⟨rfl, rfl, rfl, rfl⟩

/-- C6 counterexample: an if expression naming a fact key absent from the
fact table is NOT treated as false; the KeyError raised by
_expression_is escapes __setitem__ to the caller. -/
theorem C6_unknown_fact_key_escapes :
    kdSetItem { configValues := [], entries := [] } "FOO" specArchX =
      .error (.keyError "arch") :=
  rfl

/-- C6 amended: an if expression naming an unknown fact key raises KeyError
out of the whole resolve pass, so the remaining entries are not processed
(BAR is never inserted): the failure is not confined to the single entry. -/
theorem C6_unknown_fact_key_aborts_batch :
    kdRun { configValues := [], entries := [] }
      [("FOO", specArchX), ("BAR", .scalar "y")] = .error (.keyError "arch") :=
  rfl

/-- C7: a conditional override entry whose condition tests value x against
fact arch is dropped (only the failed-generation warning, no insertion)
when the facts say arch is arm, and is present with value x when the facts
say arch is x. -/
theorem C7_conditional_override :
    kdSetItem { configValues := [("arch", .s "arm")], entries := [] } "FOO" specArchX =
      .ok ({ configValues := [("arch", .s "arm")], entries := [] },
           [.failedGenerate "FOO"]) ∧
    kdSetItem { configValues := [("arch", .s "x")], entries := [] } "FOO" specArchX =
      .ok ({ configValues := [("arch", .s "x")],
             entries := [("CONFIG_FOO",
               { name := "CONFIG_FOO", value := some "x", defined := true,
                 description := none })] }, []) :=
  ⟨rfl, rfl⟩

/-- C5 counterexample: parsing a menu opener followed by a mismatched
endchoice ends in success with no warning or error of any kind, and the
menu entry pushed onto the mode history HAS been popped (only the whole
opening line remains on the history): the mismatch is silently absorbed,
refuting both halves of the claim. -/
theorem C5_endchoice_in_menu_absorbed :
    parseFile 1 fsC5 argsC5 = .ok (.node coreC5 [], []) ∧
    coreC5.modeHistory = ["menu \"A\""] :=
  ⟨rfl, rfl⟩

/-- C5 amended: an endchoice line seen while the top history frame is menu
reports nothing; the parser pops the top mode-history entry regardless of
its kind and sets the current mode to the popped value (here menu). -/
theorem C5_endchoice_pops_any_frame :
    (parseFile 1 fsC5 argsC5).map
      (fun tw => (tw.1.core.mode, tw.1.core.modeHistory, tw.2)) =
      .ok (some "menu", ["menu \"A\""], []) :=
  rfl

/-- C8: after lines config FOO, help, two indented body lines, config NEXT:
the help body line oneline two (the lines are stripped and concatenated) is
attached to FOO, the parameter that was current before help; config NEXT
starts a new, empty parameter NEXT which becomes current, and help mode is
off, so the closing line was not taken as a third help line. -/
theorem C8_help_block_termination :
    (parseFile 1 fsC8 argsC8).map
      (fun tw => (alGet "FOO" tw.1.core.configD, alGet "NEXT" tw.1.core.configD,
                  alGet "config" tw.1.core.currents, tw.1.core.helpMode)) =
      .ok (some { help := some "line oneline two" }, some {}, some "NEXT", false) :=
  rfl

/-- C9 counterexample: parsing a file with two identical source directives
emits NO warning at all (the claim says the overwrite must warn): the
warning list of the whole run is empty. -/
theorem C9_duplicate_source_no_warning :
    (parseFile 3 fsC9 argsC9).map (fun tw => tw.2) = .ok [] :=
  rfl

/-- C9 amended: the second identical source directive overwrites the
sub_configs entry under the same path key (one child remains, keyed by the
path), and no warning about the overwrite is emitted. -/
theorem C9_duplicate_source_overwrites_silently :
    (parseFile 3 fsC9 argsC9).map (fun tw => (tw.1.subs.map Prod.fst, tw.2)) =
      .ok (["b.kconfig"], []) :=
  rfl

/-- C2: a source cycle is NOT detected.  Parsing a file that sources itself
re-enters parseFile once per include level with no cycle check, so for
every recursion bound the parse exhausts the bound (Python: RecursionError,
a stack overflow guard, not a structural error identifying the cycle).
This evaluates the code at the failing input of the code_bug. -/
theorem C2_source_cycle_unbounded_recursion :
    ∀ n : Nat, parseFile n fsCyc argsCyc = .error .outOfFuel := by
  intro n
  induction n with
  | zero => rfl
  | succ n ih =>
    obtain ⟨k, hk⟩ :
        ∃ k, parseLineGo (childCyc n) pst0Cyc "source \"a.kconfig\"" =
          Except.bind (childCyc n "a.kconfig" none none) k := ⟨_, rfl⟩
    have h2 : parseLineGo (childCyc n) pst0Cyc "source \"a.kconfig\"" =
        .error .outOfFuel := by
      rw [hk]
      have hch : childCyc n "a.kconfig" none none = Except.error PErr.outOfFuel := ih
      rw [hch]
      rfl
    have h3 : parseFile (n + 1) fsCyc argsCyc =
        (match parseLinesGo (childCyc n) pst0Cyc ["source \"a.kconfig\""] with
         | .error er => .error er
         | .ok st => .ok (.node st.core st.subs, st.warns)) := rfl
    have h4 : parseLinesGo (childCyc n) pst0Cyc ["source \"a.kconfig\""] =
        .error .outOfFuel := by
      show (match parseLineGo (childCyc n) pst0Cyc "source \"a.kconfig\"" with
            | .error er => (.error er : Except PErr PState)
            | .ok st1 => parseLinesGo (childCyc n) st1 []) = .error .outOfFuel
      rw [h2]
    rw [h3, h4]

/-- C2 witness: the unbounded recursion evaluated at a concrete bound. -/
theorem C2_source_cycle_witness :
    parseFile 7 fsCyc argsCyc = .error .outOfFuel :=
  C2_source_cycle_unbounded_recursion 7

/-! ## Helper lemmas for the collection invariant -/

theorem toNat_charOfNat_of_lt {m : Nat} (h : m < 55296) : (Char.ofNat m).toNat = m := by
  have hv : m.isValidChar := Or.inl h
  rw [Char.ofNat, dif_pos hv]
  rfl

theorem toNat_upperChar (c : Char) :
    (upperChar c).toNat =
      if 97 ≤ c.toNat ∧ c.toNat ≤ 122 then c.toNat - 32 else c.toNat := by
  unfold upperChar
  by_cases h : 97 ≤ c.toNat ∧ c.toNat ≤ 122
  · rw [if_pos h, if_pos h, toNat_charOfNat_of_lt (by omega)]
  · rw [if_neg h, if_neg h]

theorem upperChar_not_lowercase (c : Char) :
    (decide ((upperChar c).toNat < 97) || decide (122 < (upperChar c).toNat)) = true := by
  have h := toNat_upperChar c
  by_cases hc : 97 ≤ c.toNat ∧ c.toNat ≤ 122
  · rw [if_pos hc] at h
    have h1 : (upperChar c).toNat < 97 := by omega
    simp [h1]
  · rw [if_neg hc] at h
    rcases Nat.lt_or_ge c.toNat 97 with h1 | h1
    · have h2 : (upperChar c).toNat < 97 := by omega
      simp [h2]
    · have h2 : 122 < (upperChar c).toNat := by omega
      simp [h2]

theorem strDataAppend (a b : String) : (a ++ b).data = a.data ++ b.data := rfl

theorem isPrefixOf_self_append (l t : List Char) : l.isPrefixOf (l ++ t) = true := by
  rw [List.isPrefixOf_iff_prefix]
  exact List.prefix_append l t

theorem allNonLower_pyUpper (s : String) :
    (pyUpper s).data.all (fun c => decide (c.toNat < 97) || decide (122 < c.toNat)) = true := by
  show (s.data.map upperChar).all _ = true
  rw [List.all_map]
  refine List.all_eq_true.mpr ?_
  intro c _
  exact upperChar_not_lowercase c

theorem isNormalizedName_normalizeName (s : String) :
    isNormalizedName (normalizeName s) := by
  unfold normalizeName
  by_cases hp : strStartsWith (pyUpper s) "CONFIG_"
  · rw [if_pos hp]
    exact ⟨hp, allNonLower_pyUpper s⟩
  · rw [if_neg hp]
    constructor
    · show ("CONFIG_".data).isPrefixOf (("CONFIG_" ++ pyUpper s).data) = true
      rw [strDataAppend]
      exact isPrefixOf_self_append _ _
    · show (("CONFIG_" ++ pyUpper s).data).all _ = true
      rw [strDataAppend, List.all_append]
      refine (Bool.and_eq_true _ _).mpr ⟨by decide, allNonLower_pyUpper s⟩

theorem mapSome_ok {x : Except KcErr LinuxKernelConfigParameter}
    {p : LinuxKernelConfigParameter}
    (h : Except.map some x = .ok (some p)) : x = .ok p := by
  cases x with
  | error e => simp [Except.map] at h
  | ok q =>
    simp only [Except.map] at h
    injection h with h1
    injection h1 with h2
    rw [h2]

theorem mkLKCP_ok_name {n : String} {v : Option String} {dk : Option Bool}
    {ds : Option String} {p : LinuxKernelConfigParameter}
    (h : mkLKCP (some n) v dk ds = .ok p) : p.name = normalizeName n := by
  cases v with
  | some s =>
    replace h :
        (if !pyValidateName n then (Except.error (KcErr.valueErrorName n))
         else if !pyValidateValue s then Except.error (KcErr.valueErrorValue s)
         else Except.ok { name := normalizeName n, value := some s,
                          defined := dk.getD true, description := ds }) = .ok p := h
    by_cases hn : (!pyValidateName n) = true
    · rw [if_pos hn] at h
      exact Except.noConfusion h
    · rw [if_neg hn] at h
      by_cases hv : (!pyValidateValue s) = true
      · rw [if_pos hv] at h
        exact Except.noConfusion h
      · rw [if_neg hv] at h
        injection h with h1
        rw [← h1]
  | none =>
    replace h :
        (if !pyValidateName n then (Except.error (KcErr.valueErrorName n))
         else Except.ok { name := normalizeName n, value := none,
                          defined := dk.getD true, description := ds }) = .ok p := h
    by_cases hn : (!pyValidateName n) = true
    · rw [if_pos hn] at h
      exact Except.noConfusion h
    · rw [if_neg hn] at h
      injection h with h1
      rw [← h1]

theorem genConfigObj_ok_name {f : List (String × FactVal)} {key : String}
    {sp : OvSpec} {p : LinuxKernelConfigParameter}
    (h : genConfigObj f key sp = .ok (some p)) : p.name = normalizeName key := by
  cases sp with
  | null =>
    replace h : Except.map some (mkLKCP (some key) none (some false) none) =
        .ok (some p) := h
    exact mkLKCP_ok_name (mapSome_ok h)
  | scalar v =>
    replace h : Except.map some (mkLKCP (some key) (some v) none none) =
        .ok (some p) := h
    exact mkLKCP_ok_name (mapSome_ok h)
  | record val desc ifs =>
    cases val with
    | none =>
      replace h : (Except.error (KcErr.keyError "value") :
          Except KcErr (Option LinuxKernelConfigParameter)) = .ok (some p) := h
      exact Except.noConfusion h
    | some v =>
      cases ifs with
      | none =>
        replace h : Except.map some (mkLKCP (some key) (some v) none desc) =
            .ok (some p) := h
        exact mkLKCP_ok_name (mapSome_ok h)
      | some es =>
        replace h :
            (match checkList f es with
             | .error er => (.error er : Except KcErr (Option LinuxKernelConfigParameter))
             | .ok bs =>
               if bs.contains true then
                 Except.map some (mkLKCP (some key) (some v) none desc)
               else .ok none) = .ok (some p) := h
        cases hcl : checkList f es with
        | error e =>
          rw [hcl] at h
          exact Except.noConfusion h
        | ok bs =>
          rw [hcl] at h
          replace h :
              (if bs.contains true then
                 Except.map some (mkLKCP (some key) (some v) none desc)
               else (.ok none : Except KcErr (Option LinuxKernelConfigParameter))) =
                .ok (some p) := h
          by_cases hb : bs.contains true = true
          · rw [if_pos hb] at h
            exact mkLKCP_ok_name (mapSome_ok h)
          · rw [if_neg hb] at h
            injection h with h1
            exact Option.noConfusion h1

theorem mem_alSet {α : Type} (k : String) (v : α) :
    ∀ (l : List (String × α)) (x : String × α),
      x ∈ alSet k v l → x = (k, v) ∨ x ∈ l := by
  intro l
  induction l with
  | nil =>
    intro x hx
    unfold alSet at hx
    rcases List.mem_singleton.mp hx with h1
    exact Or.inl h1
  | cons kv t ih =>
    intro x hx
    obtain ⟨k1, v1⟩ := kv
    unfold alSet at hx
    split at hx
    · rcases List.mem_cons.mp hx with h1 | h1
      · exact Or.inl h1
      · exact Or.inr (List.mem_cons_of_mem _ h1)
    · rcases List.mem_cons.mp hx with h1 | h1
      · exact Or.inr (h1 ▸ List.mem_cons_self _ _)
      · rcases ih x h1 with h2 | h2
        · exact Or.inl h2
        · exact Or.inr (List.mem_cons_of_mem _ h2)

theorem kdSetItem_preserves_inv {d : KernelDict} {key : String} {sp : OvSpec}
    {d1 : KernelDict} {w : List DWarn}
    (h : kdSetItem d key sp = .ok (d1, w)) (hinv : kdInv d) : kdInv d1 := by
  unfold kdSetItem at h
  cases hg : genConfigObj d.configValues key sp with
  | error e => rw [hg] at h; exact Except.noConfusion h
  | ok op =>
    rw [hg] at h
    cases op with
    | none =>
      injection h with h1
      injection h1 with hd hw
      rw [← hd]
      exact hinv
    | some p =>
      injection h with h1
      have hd : d1 = { d with entries := alSet p.name p d.entries } := by
        have h2 := congrArg Prod.fst h1
        simp only [updateValue] at h2
        exact h2.symm
      intro kp hkp
      rw [hd] at hkp
      rcases mem_alSet _ _ _ _ hkp with h2 | h2
      · rw [h2]
        refine ⟨rfl, ?_⟩
        show isNormalizedName p.name
        rw [genConfigObj_ok_name hg]
        exact isNormalizedName_normalizeName key
      · exact hinv kp h2

theorem kdRunGo_preserves_inv :
    ∀ (ops : List (String × OvSpec)) (d : KernelDict) (acc : List DWarn)
      (d1 : KernelDict) (w : List DWarn),
      kdRunGo d acc ops = .ok (d1, w) → kdInv d → kdInv d1 := by
  intro ops
  induction ops with
  | nil =>
    intro d acc d1 w h hinv
    unfold kdRunGo at h
    injection h with h1
    injection h1 with hd hw
    rw [← hd]
    exact hinv
  | cons kv rest ih =>
    intro d acc d1 w h hinv
    obtain ⟨k0, v0⟩ := kv
    unfold kdRunGo at h
    cases hs : kdSetItem d k0 v0 with
    | error e => rw [hs] at h; exact Except.noConfusion h
    | ok pr =>
      rw [hs] at h
      obtain ⟨d2, w2⟩ := pr
      exact ih d2 (acc ++ w2) d1 w h (kdSetItem_preserves_inv hs hinv)

/-- C10: after any sequence of item assignments to a fresh KernelDict that
completes without an exception, every stored value is a
LinuxKernelConfigParameter (by the type of the entries) and every stored
key equals that record's normalized name, which is CONFIG_-prefixed and
uppercased; in particular assigning scalar y under the key foo stores the
record under CONFIG_FOO and the key foo itself is absent. -/
theorem C10_collection_invariant :
    (∀ (facts : List (String × FactVal)) (ops : List (String × OvSpec))
       (d : KernelDict) (w : List DWarn),
       kdRun { configValues := facts, entries := [] } ops = .ok (d, w) →
       kdInv d) ∧
    kdSetItem { configValues := [], entries := [] } "foo" (.scalar "y") =
      .ok ({ configValues := [], entries := [("CONFIG_FOO", pFooY)] }, []) ∧
    alGet "foo" [("CONFIG_FOO", pFooY)] = none := by
  refine ⟨?_, rfl, rfl⟩
  intro facts ops d w h
  refine kdRunGo_preserves_inv ops _ [] d w h ?_
  intro kp hkp
  exact absurd hkp (List.not_mem_nil kp)

/-- C10 witness: the invariant instantiated on the one-assignment sequence
that stores foo as CONFIG_FOO. -/
theorem C10_collection_invariant_witness :
    "CONFIG_FOO" = pFooY.name ∧ isNormalizedName pFooY.name := by
  have h :=
    (C10_collection_invariant).1 [] [("foo", OvSpec.scalar "y")]
      { configValues := [], entries := [("CONFIG_FOO", pFooY)] } [] rfl
  exact h ("CONFIG_FOO", pFooY) (List.mem_singleton.mpr rfl)
